import Mathlib

/-!
Shallow embedding of the control-device session code of `src/ctl/card.c`
(alsa-gobject). Kernel `ioctl` exchanges are modelled as oracle functions,
machine integers as `Nat` with explicit `% 2^32` where the C type wraps,
and fallible paths as `Except`/`Option` values. Each embedded definition
follows the corresponding C function; theorems below settle the claims
about them.
-/

deriving instance DecidableEq for Except

namespace AlsaCtl

/-- 2^32, the value space of the C `unsigned int`/`u32` fields. -/
def U32 : Nat := 4294967296

/-- errno code EINVAL (invalid argument). -/
def EINVAL : Nat := 22

/-- errno code ENOMEM (out of memory). -/
def ENOMEM : Nat := 12

/-- errno code ENXIO (no such device or address). -/
def ENXIO : Nat := 6

/-- errno code EAGAIN (resource temporarily unavailable / would block). -/
def EAGAIN : Nat := 11

/-- Modelled from the spec: `generate_error` (error-object construction,
outside `src/`) produces a structured error value. Spec section 7 names the
kinds: `DeviceIoError` wraps the OS error code of a failed syscall verbatim;
the internally generated `EINVAL` on a caller contract violation is the
`InvalidArgument` kind, the internal `ENOMEM` on allocation failure is
`OutOfMemory`, and the internal `ENXIO` on an unrecognized element-type
discriminant is `UnsupportedType`. -/
inductive CtlError where
  | deviceIo (code : Nat)
  | invalidArgument
  | outOfMemory
  | unsupportedType
  deriving DecidableEq, Repr

/-- Classification applied by `generate_error` to the internally generated
codes of `card.c` (`-EINVAL`, `-ENOMEM` from `prepare_enum_names`). -/
def errKindOf (e : Nat) : CtlError :=
  if e = EINVAL then .invalidArgument
  else if e = ENOMEM then .outOfMemory
  else .deviceIo e

/-- `struct snd_ctl_elem_id`: numeric id, interface class, device, subdevice,
name and index. All integer fields are kernel `unsigned int` values. -/
structure ElemId where
  numid : Nat
  iface : Nat
  device : Nat
  subdevice : Nat
  name : String
  index : Nat
  deriving DecidableEq, Repr

/-- The zero-filled `struct snd_ctl_elem_id` (as produced by `calloc`). -/
def zeroElemId : ElemId := ⟨0, 0, 0, 0, "", 0⟩

/-- Shared per-session state touched by the Event Source paths of `card.c`:
the `subscribers` counter of `ALSACtlCardPrivate` (a `gint`) together with
counts of the subscribe/unsubscribe `SNDRV_CTL_IOCTL_SUBSCRIBE_EVENTS`
ioctl commands issued so far. -/
structure SubState where
  subscribers : Int
  subIoctls : Nat
  unsubIoctls : Nat
  deriving DecidableEq, Repr

/-- `ctl_card_finalize_src`: `g_atomic_int_dec_and_test(&priv->subscribers)`
decrements the shared counter and, exactly when it reaches zero, issues the
kernel unsubscribe command (`subscribe = 0`). -/
def ctl_card_finalize_src (s : SubState) : SubState :=
  let n := s.subscribers - 1
  if n = 0 then
    { s with subscribers := n, unsubIoctls := s.unsubIoctls + 1 }
  else
    { s with subscribers := n }

/-- The subscription step of `alsactl_card_create_source`:
`g_atomic_int_inc(&priv->subscribers)` followed by the subscribe ioctl
(`subscribe = 1`), in that order. -/
def alsactl_card_create_source (s : SubState) : SubState :=
  { s with subscribers := s.subscribers + 1, subIoctls := s.subIoctls + 1 }

/-- Verdict returned by a GSource dispatch callback:
`G_SOURCE_REMOVE` or `G_SOURCE_CONTINUE`. -/
inductive GSourceVerdict where
  | remove
  | keep
  deriving DecidableEq, Repr

/-- Result of one `ctl_card_dispatch_src` invocation: the verdict, whether a
`read(2)` was attempted, and the (untouched) shared subscription state. -/
structure DispatchOutcome where
  verdict : GSourceVerdict
  readAttempted : Bool
  state : SubState
  deriving DecidableEq, Repr

/-- `ctl_card_dispatch_src`: an invalid descriptor or error-readiness
(`G_IO_ERR`) removes the source without reading; a failed `read` removes it
unless `errno` is `EAGAIN`, which re-arms the source; a successful read
frames the event records (taking no per-record action) and re-arms.
`readResult` is the oracle for the non-blocking `read(2)`: the byte count
or the `errno` of a failure. The shared subscription state is returned to
exhibit that dispatch performs no subscribe/unsubscribe action. -/
def ctl_card_dispatch_src (s : SubState) (fdValid : Bool) (ioErr : Bool)
    (readResult : Except Nat Nat) : DispatchOutcome :=
  if ¬ fdValid then ⟨.remove, false, s⟩
  else if ioErr then ⟨.remove, false, s⟩
  else
    match readResult with
    | .error e => if e = EAGAIN then ⟨.keep, true, s⟩ else ⟨.remove, true, s⟩
    | .ok _len => ⟨.keep, true, s⟩

/-- `struct snd_ctl_tlv`: numeric element id, payload length in bytes, and
the quadlet payload (`tlv[]`) backing store. The three TLV operations
allocate it with `g_malloc0(sizeof(*packet) + container_size)`, so a fresh
packet's payload is zero-filled. -/
structure TlvPacket where
  numid : Nat
  length : Nat
  tlv : List Int
  deriving DecidableEq, Repr

/-- `memcpy(dst, src, bytes)` on quadlet buffers: the first `bytes / 4`
quadlets of `dst` are replaced by those of `src`, the rest of `dst` is
kept. (`card.c` only copies whole quadlets: `bytes` is always a multiple
of `sizeof(gint32)`.) -/
def copyQuadlets (dst src : List Int) (bytes : Nat) : List Int :=
  src.take (bytes / 4) ++ dst.drop (bytes / 4)

/-- Observable outcome of one TLV operation: the error (if any), the
caller's quadlet buffer and reported count after the call, the number of
ioctl calls issued, and whether no transient packet remains allocated on
return. -/
structure TlvOutcome where
  err : Option CtlError
  buf : List Int
  count : Nat
  ioctls : Nat
  packetFreed : Bool
  deriving DecidableEq, Repr

/-- `alsactl_card_write_elem_tlv`. `kernel` is the oracle for the
`SNDRV_CTL_IOCTL_TLV_WRITE` ioctl (errno on failure, the post-ioctl packet
contents on success); `isNull` models a NULL `container` pointer and the
list length models `container_count`. -/
def alsactl_card_write_elem_tlv (kernel : TlvPacket → Except Nat TlvPacket)
    (numid : Nat) (isNull : Bool) (container : List Int) : TlvOutcome :=
  -- At least two quadlets should be included for type and length.
  if isNull ∨ container.length < 2 then
    { err := some .invalidArgument, buf := container, count := container.length,
      ioctls := 0, packetFreed := true }
  else
    -- packet->length = container_size; memcpy(packet->tlv, container, size)
    let packet : TlvPacket := ⟨numid, 4 * container.length, container⟩
    match kernel packet with
    | .error e =>
        { err := some (.deviceIo e), buf := container, count := container.length,
          ioctls := 1, packetFreed := true }
    | .ok _reply =>
        { err := none, buf := container, count := container.length,
          ioctls := 1, packetFreed := true }

/-- `alsactl_card_read_elem_tlv`. The packet is zero-filled on allocation
and its payload is not seeded from the container. After the ioctl the code
unconditionally copies `packet->length` bytes back into the caller's buffer
and sets the reported count — it does so even when the ioctl failed (there
is no early return on the error path); a failed ioctl leaves the packet
unchanged, so the zero-filled payload is what gets copied back. -/
def alsactl_card_read_elem_tlv (kernel : TlvPacket → Except Nat TlvPacket)
    (numid : Nat) (isNull : Bool) (container : List Int) : TlvOutcome :=
  if isNull ∨ container.length < 2 then
    { err := some .invalidArgument, buf := container, count := container.length,
      ioctls := 0, packetFreed := true }
  else
    let packet : TlvPacket := ⟨numid, 4 * container.length,
                               List.replicate container.length 0⟩
    match kernel packet with
    | .error e =>
        { err := some (.deviceIo e),
          buf := copyQuadlets container packet.tlv packet.length,
          count := packet.length / 4, ioctls := 1, packetFreed := true }
    | .ok reply =>
        { err := none,
          buf := copyQuadlets container reply.tlv reply.length,
          count := reply.length / 4, ioctls := 1, packetFreed := true }

/-- `alsactl_card_command_elem_tlv`: like write (payload copied in before
the ioctl) followed by the unconditional copy-back of read; on a failed
ioctl the unchanged packet still holds the caller's own quadlets, which are
copied back over themselves. -/
def alsactl_card_command_elem_tlv (kernel : TlvPacket → Except Nat TlvPacket)
    (numid : Nat) (isNull : Bool) (container : List Int) : TlvOutcome :=
  if isNull ∨ container.length < 2 then
    { err := some .invalidArgument, buf := container, count := container.length,
      ioctls := 0, packetFreed := true }
  else
    let packet : TlvPacket := ⟨numid, 4 * container.length, container⟩
    match kernel packet with
    | .error e =>
        { err := some (.deviceIo e),
          buf := copyQuadlets container packet.tlv packet.length,
          count := packet.length / 4, ioctls := 1, packetFreed := true }
    | .ok reply =>
        { err := none,
          buf := copyQuadlets container reply.tlv reply.length,
          count := reply.length / 4, ioctls := 1, packetFreed := true }

/-- `memcpy`-style overwrite of the slots of `dst` starting at `offset`
with the entries of `chunk`: the kernel writing entries at `pids + offset`
into the `calloc`-ed id array of `allocate_elem_ids`. -/
def writeChunk (dst : List ElemId) (offset : Nat) (chunk : List ElemId) :
    List ElemId :=
  dst.take offset ++ chunk.take (dst.length - offset)
    ++ dst.drop (offset + chunk.length)

/-- The pagination loop of `allocate_elem_ids`: while the running offset
has not covered the count, request `space = MIN(count - offset, 1000)`
entries at the offset, write them at `ids + offset`, and advance the
offset by `space`; a failed ioctl aborts the whole operation with
`DeviceIoError` and frees the array. `q` is the oracle for the
`SNDRV_CTL_IOCTL_ELEM_LIST` ioctl: given (offset, space) it returns the
entries the kernel wrote or the errno of a failure. The second component
logs every (offset, space) list query issued. -/
def elemListLoop (q : Nat → Nat → Except Nat (List ElemId)) (count : Nat)
    (offset : Nat) (ids : List ElemId) (log : List (Nat × Nat)) :
    Except CtlError (List ElemId) × List (Nat × Nat) :=
  if _h : offset < count then
    let space := min (count - offset) 1000
    match q offset space with
    | .error e => (.error (.deviceIo e), log ++ [(offset, space)])
    | .ok chunk =>
        elemListLoop q count (offset + space) (writeChunk ids offset chunk)
          (log ++ [(offset, space)])
  else (.ok ids, log)
termination_by count - offset
decreasing_by omega

/-- `allocate_elem_ids`: the zero-count query (`qcount`, the first
`SNDRV_CTL_IOCTL_ELEM_LIST` ioctl on the zero-filled struct) learns the
total count; count 0 returns the empty list immediately; otherwise a
`calloc`-ed array of `count` zero ids (`allocOk` models `calloc` success)
is filled by the pagination loop. -/
def allocate_elem_ids (qcount : Except Nat Nat) (allocOk : Bool)
    (q : Nat → Nat → Except Nat (List ElemId)) :
    Except CtlError (List ElemId) × List (Nat × Nat) :=
  match qcount with
  | .error e => (.error (.deviceIo e), [])
  | .ok count =>
      if count = 0 then (.ok [], [])
      else if ¬ allocOk then (.error .outOfMemory, [])
      else elemListLoop q count 0 (List.replicate count zeroElemId) []

/-- `alsactl_card_get_elem_id_list`: delegates to `allocate_elem_ids`,
then appends one boxed copy of each of the `count` array slots, in array
order, to the result list (the identity on our id list), and deallocates
the array. -/
def alsactl_card_get_elem_id_list (qcount : Except Nat Nat) (allocOk : Bool)
    (q : Nat → Nat → Except Nat (List ElemId)) :
    Except CtlError (List ElemId) × List (Nat × Nat) :=
  match allocate_elem_ids qcount allocOk q with
  | (.error e, log) => (.error e, log)
  | (.ok ids, log) => (.ok ids, log)

/-- A well-behaved kernel for the element-list query: the device holds
`elems` in kernel-reported order and each call returns the `space` entries
starting at `offset`. -/
def goodListKernel (elems : List ElemId) :
    Nat → Nat → Except Nat (List ElemId) :=
  fun offset space => .ok ((elems.drop offset).take space)

/-- Like `goodListKernel`, but the list query at offset `failOffset`
fails with errno `e`. -/
def failListKernel (elems : List ElemId) (failOffset e : Nat) :
    Nat → Nat → Except Nat (List ElemId) :=
  fun offset space =>
    if offset = failOffset then .error e
    else .ok ((elems.drop offset).take space)

/-- The (offset, space) request schedule the pagination loop issues over a
total of `count` entries starting at `offset`. -/
def listSchedule (count offset : Nat) : List (Nat × Nat) :=
  if _h : offset < count then
    let space := min (count - offset) 1000
    (offset, space) :: listSchedule count (offset + space)
  else []
termination_by count - offset
decreasing_by omega

/-- A request log in which each query starts at the running offset, asks
for `min(count - offset, 1000)` entries (so never more than 1000), and
advances the offset by the requested space, until the full count is
covered. -/
def scheduleCovers (count : Nat) : Nat → List (Nat × Nat) → Prop
  | offset, [] => count ≤ offset
  | offset, (o, s) :: rest =>
      o = offset ∧ s = min (count - offset) 1000 ∧ 1 ≤ s ∧ s ≤ 1000 ∧
      scheduleCovers count (offset + s) rest

/-- Element-type discriminant `SNDRV_CTL_ELEM_TYPE_BOOLEAN`. -/
def SNDRV_CTL_ELEM_TYPE_BOOLEAN : Nat := 1

/-- Element-type discriminant `SNDRV_CTL_ELEM_TYPE_INTEGER`. -/
def SNDRV_CTL_ELEM_TYPE_INTEGER : Nat := 2

/-- Element-type discriminant `SNDRV_CTL_ELEM_TYPE_ENUMERATED`. -/
def SNDRV_CTL_ELEM_TYPE_ENUMERATED : Nat := 3

/-- Element-type discriminant `SNDRV_CTL_ELEM_TYPE_BYTES`. -/
def SNDRV_CTL_ELEM_TYPE_BYTES : Nat := 4

/-- Element-type discriminant `SNDRV_CTL_ELEM_TYPE_IEC958`. -/
def SNDRV_CTL_ELEM_TYPE_IEC958 : Nat := 5

/-- Element-type discriminant `SNDRV_CTL_ELEM_TYPE_INTEGER64`. -/
def SNDRV_CTL_ELEM_TYPE_INTEGER64 : Nat := 6

/-- The UTF-8 bytes of a GLib string, as `Nat` values. C `strlen`/`strcpy`
operate on exactly these bytes (labels are assumed NUL-free, as any C
string is). -/
def strBytes (s : String) : List Nat :=
  (s.data.flatMap String.utf8EncodeChar).map (fun b => b.toNat)

/-- `strlen` on a label. -/
def strlen (s : String) : Nat := (strBytes s).length

/-- The measuring loop of `prepare_enum_names`: rejects any label of 64
bytes or more with `EINVAL`, otherwise accumulates `strlen(label) + 1`
onto the `unsigned int` accumulator `length`. In the C source this local
is read UNINITIALIZED (there is no `length = 0`); `length0` is its
indeterminate starting value. -/
def measureLabels (length0 : Nat) : List String → Except Nat Nat
  | [] => .ok length0
  | label :: rest =>
      if 64 ≤ strlen label then .error EINVAL
      else measureLabels ((length0 + strlen label + 1) % U32) rest

/-- The writing loop of `prepare_enum_names`: each label's bytes followed
by a NUL, contiguously. -/
def serializeLabels : List String → List Nat
  | [] => []
  | label :: rest => strBytes label ++ [0] ++ serializeLabels rest

/-- The scratch buffer prepared by `prepare_enum_names`: its byte contents,
the declared `names_length`, and the item count. -/
structure EnumNames where
  bytes : List Nat
  namesLength : Nat
  items : Nat
  deriving DecidableEq, Repr

/-- `prepare_enum_names`: measure the labels (accumulating onto the
uninitialized `length`, starting value `junk`), reject a total above
64 KiB with `EINVAL`, allocate the zero-filled scratch buffer of `length`
bytes (`allocOk` models `g_malloc0` success), then write the NUL-separated
labels into it and set `items` to the label count. The buffer contents are
truncated to the allocated `length` bytes (the C write loop would overflow
the allocation whenever the serialized total exceeds `length`, which a
wrapped accumulator makes possible). -/
def prepare_enum_names (junk : Nat) (allocOk : Bool) (labels : List String) :
    Except Nat EnumNames :=
  match measureLabels junk labels with
  | .error e => .error e
  | .ok len =>
    if 64 * 1024 < len then .error EINVAL
    else if ¬ allocOk then .error ENOMEM
    else
      .ok { bytes := (serializeLabels labels).take len
                       ++ List.replicate (len - (serializeLabels labels).length) 0,
            namesLength := len, items := labels.length }

/-- `struct snd_ctl_elem_info` as used by `card.c`: the element id, type
discriminant, owner, and the `value.enumerated` members (item index, the
kernel-reported name, the attached names buffer and its length). -/
structure SndCtlElemInfo where
  id : ElemId
  type : Nat
  owner : Nat
  enumItems : Nat
  enumItem : Nat
  enumName : String
  enumNamesLength : Nat
  enumNamesBytes : List Nat
  deriving DecidableEq, Repr

/-- The zero-filled `struct snd_ctl_elem_info`. -/
def zeroElemInfo : SndCtlElemInfo := ⟨zeroElemId, 0, 0, 0, 0, "", 0, []⟩

/-- An element id advanced `i` times by the `++numid; ++index` loop of
`add_or_replace_elems` (both fields are C `unsigned int`, hence the wrap). -/
def advanceId (base : ElemId) (i : Nat) : ElemId :=
  { base with numid := (base.numid + i) % U32, index := (base.index + i) % U32 }

/-- The result-collection loop of `add_or_replace_elems`: append a copy of
the current `info->id`, then increment its numeric id and index, `n` times;
returns the collected entries and the final id left in the record. -/
def collectEntries : Nat → ElemId → List ElemId × ElemId
  | 0, id0 => ([], id0)
  | n + 1, id0 =>
      let next : ElemId :=
        { id0 with numid := (id0.numid + 1) % U32, index := (id0.index + 1) % U32 }
      (id0 :: (collectEntries n next).1, (collectEntries n next).2)

/-- Observable outcome of `add_or_replace_elems`: the error (if any), the
returned element-id entries, the info packet as handed to the ioctl
(`none` when no ioctl was issued), the caller's `elem_info` record after
the call, the ioctl count, and whether the scratch names buffer does not
outlive the call. -/
structure AddElemsOutcome where
  err : Option CtlError
  entries : List ElemId
  sent : Option SndCtlElemInfo
  finalInfo : SndCtlElemInfo
  ioctls : Nat
  scratchFreed : Bool
  deriving DecidableEq, Repr

/-- `add_or_replace_elems`. `kernel` is the oracle for the
`SNDRV_CTL_IOCTL_ELEM_ADD`/`..._REPLACE` ioctl (selected by the `Bool`):
errno on failure, otherwise the post-ioctl contents of the user-space
struct. The caller's `elem_info` record is mutated in place: its id is
overwritten with the requested id, its owner with the (`pid_t`-cast)
requested count; on success the kernel reply is advanced `elem_count`
times by the collection loop; the scratch buffer is freed right after the
ioctl, before the error check. -/
def add_or_replace_elems
    (kernel : Bool → SndCtlElemInfo → Except Nat SndCtlElemInfo)
    (junk : Nat) (allocOk : Bool) (elem_id : ElemId) (elem_count : Nat)
    (elem_info : SndCtlElemInfo) (labels : List String) (replace : Bool) :
    AddElemsOutcome :=
  let info0 := { elem_info with id := elem_id }
  let prepared : Except Nat SndCtlElemInfo :=
    if info0.type = SNDRV_CTL_ELEM_TYPE_ENUMERATED then
      match prepare_enum_names junk allocOk labels with
      | .error e => .error e
      | .ok en =>
          .ok { info0 with
                enumNamesBytes := en.bytes,
                enumNamesLength := en.namesLength,
                enumItems := en.items }
    else .ok info0
  match prepared with
  | .error e =>
      { err := some (errKindOf e), entries := [], sent := none,
        finalInfo := info0, ioctls := 0, scratchFreed := true }
  | .ok info1 =>
      let sent := { info1 with owner := elem_count % U32 }
      match kernel replace sent with
      | .error e =>
          { err := some (.deviceIo e), entries := [], sent := some sent,
            finalInfo := sent, ioctls := 1, scratchFreed := true }
      | .ok reply =>
          { err := none, entries := (collectEntries elem_count reply.id).1,
            sent := some sent,
            finalInfo := { reply with id := (collectEntries elem_count reply.id).2 },
            ioctls := 1, scratchFreed := true }

/-- `alsactl_card_add_elems`: `add_or_replace_elems` with the add selector. -/
def alsactl_card_add_elems
    (kernel : Bool → SndCtlElemInfo → Except Nat SndCtlElemInfo)
    (junk : Nat) (allocOk : Bool) (elem_id : ElemId) (elem_count : Nat)
    (elem_info : SndCtlElemInfo) (labels : List String) : AddElemsOutcome :=
  add_or_replace_elems kernel junk allocOk elem_id elem_count elem_info labels false

/-- `alsactl_card_replace_elems`: `add_or_replace_elems` with the replace
selector. -/
def alsactl_card_replace_elems
    (kernel : Bool → SndCtlElemInfo → Except Nat SndCtlElemInfo)
    (junk : Nat) (allocOk : Bool) (elem_id : ElemId) (elem_count : Nat)
    (elem_info : SndCtlElemInfo) (labels : List String) : AddElemsOutcome :=
  add_or_replace_elems kernel junk allocOk elem_id elem_count elem_info labels true

/-- A device with `n` distinct elements, used to instantiate C1. -/
def mkIds (n : Nat) : List ElemId :=
  (List.range n).map (fun i => ⟨i, 0, 0, 0, "", 0⟩)

/-- The strongly typed Element Info variant built by
`alsactl_card_get_elem_info`: one constructor per supported discriminant,
with the owned label sequence for ENUMERATED. -/
inductive ElemInfoVariant where
  | boolV
  | intV
  | bytesV
  | iec60958V
  | int64V
  | enumV (labels : List String)
  deriving DecidableEq, Repr

/-- The per-index label loop of `alsactl_card_get_elem_info`: for each
`i < info.value.enumerated.items` set `item = i`, issue the info ioctl,
and collect the kernel-reported name. `capacity` is the number of label
slots allocated from the initial reply's `items`
(`g_malloc0_n(items + 1, ...)`); the C loop bound re-reads `items` from
the most recent reply, so a kernel growing `items` past the allocated
capacity would overflow the C label array — that case is returned as
`none` and is outside the claims' scope. `callNo` numbers the ioctl calls
issued by the surrounding operation; the second component is the call
count after the loop. -/
def enumLabelLoop (kernel : Nat → SndCtlElemInfo → Except Nat SndCtlElemInfo) :
    Nat → Nat → Nat → SndCtlElemInfo → List String →
    (Except Nat (Option (List String × SndCtlElemInfo))) × Nat
  | 0, i, callNo, info, labels =>
      (if i < info.enumItems then .ok none else .ok (some (labels, info)), callNo)
  | cap + 1, i, callNo, info, labels =>
      if i < info.enumItems then
        match kernel callNo { info with enumItem := i } with
        | .error e => (.error e, callNo + 1)
        | .ok reply =>
            enumLabelLoop kernel cap (i + 1) (callNo + 1) reply
              (labels ++ [reply.enumName])
      else (.ok (some (labels, info)), callNo)

/-- `alsactl_card_get_elem_info`: issue one info ioctl on the zero-filled
struct carrying the requested id; on failure report `DeviceIoError`. For a
non-enumerated known discriminant build the matching variant; for an
unrecognized discriminant generate the internal `ENXIO`
(`UnsupportedType`). For ENUMERATED fetch one label per index; a failed
intermediate ioctl reports `DeviceIoError` and discards the partial
labels. The variant owns the struct contents left after the last ioctl.
The second component counts the ioctl calls issued. -/
def alsactl_card_get_elem_info
    (kernel : Nat → SndCtlElemInfo → Except Nat SndCtlElemInfo)
    (elem_id : ElemId) :
    Except CtlError (Option (ElemInfoVariant × SndCtlElemInfo)) × Nat :=
  match kernel 0 { zeroElemInfo with id := elem_id } with
  | .error e => (.error (.deviceIo e), 1)
  | .ok info =>
      if info.type ≠ SNDRV_CTL_ELEM_TYPE_ENUMERATED then
        if info.type = SNDRV_CTL_ELEM_TYPE_BOOLEAN then
          (.ok (some (.boolV, info)), 1)
        else if info.type = SNDRV_CTL_ELEM_TYPE_INTEGER then
          (.ok (some (.intV, info)), 1)
        else if info.type = SNDRV_CTL_ELEM_TYPE_BYTES then
          (.ok (some (.bytesV, info)), 1)
        else if info.type = SNDRV_CTL_ELEM_TYPE_IEC958 then
          (.ok (some (.iec60958V, info)), 1)
        else if info.type = SNDRV_CTL_ELEM_TYPE_INTEGER64 then
          (.ok (some (.int64V, info)), 1)
        else (.error .unsupportedType, 1)
      else
        match enumLabelLoop kernel info.enumItems 0 1 info [] with
        | (.error e, c) => (.error (.deviceIo e), c)
        | (.ok none, c) => (.ok none, c)
        | (.ok (some (labels, infoN)), c) => (.ok (some (.enumV labels, infoN)), c)

/-- A kernel consistently reporting an enumerated element with the given
label names: every info query returns type ENUMERATED,
`items = names.length`, and the name at the requested item index. -/
def enumInfoKernel (names : List String) :
    Nat → SndCtlElemInfo → Except Nat SndCtlElemInfo :=
  fun _ q =>
    .ok { q with
          type := SNDRV_CTL_ELEM_TYPE_ENUMERATED,
          enumItems := names.length,
          enumName := names.getD q.enumItem "" }

/-- Like `enumInfoKernel` but failing with errno `e` on ioctl call number
`j` (call 0 is the initial info query; calls 1.. are the per-index label
queries). -/
def enumInfoKernelFailAt (names : List String) (j e : Nat) :
    Nat → SndCtlElemInfo → Except Nat SndCtlElemInfo :=
  fun callNo q =>
    if callNo = j then .error e
    else
      .ok { q with
            type := SNDRV_CTL_ELEM_TYPE_ENUMERATED,
            enumItems := names.length,
            enumName := names.getD q.enumItem "" }

/-- A kernel reporting type discriminant `t` for every info query. -/
def typeInfoKernel (t : Nat) :
    Nat → SndCtlElemInfo → Except Nat SndCtlElemInfo :=
  fun _ q => .ok { q with type := t }

/-- C8: finalizing one of two live Event Sources decrements the shared
subscriber counter to 1 and issues no kernel unsubscribe command; finalizing
the last live source (counter reaching 0) issues the unsubscribe command
exactly once. Creating two sources on a fresh session yields counter 2. -/
theorem finalize_src_unsubscribes_last (s : SubState) (h : s.subscribers = 2) :
    (ctl_card_finalize_src s).subscribers = 1 ∧
    (ctl_card_finalize_src s).unsubIoctls = s.unsubIoctls ∧
    (ctl_card_finalize_src (ctl_card_finalize_src s)).subscribers = 0 ∧
    (ctl_card_finalize_src (ctl_card_finalize_src s)).unsubIoctls
      = s.unsubIoctls + 1 ∧
    (alsactl_card_create_source (alsactl_card_create_source ⟨0, 0, 0⟩)).subscribers
      = 2 := by
  simp [ctl_card_finalize_src, alsactl_card_create_source, h]

/-- Witness for C8 at the concrete state reached by two source creations. -/
theorem finalize_src_unsubscribes_last_witness :
    (⟨2, 2, 0⟩ : SubState).subscribers = 2 ∧
    ((ctl_card_finalize_src ⟨2, 2, 0⟩).subscribers = 1 ∧
     (ctl_card_finalize_src ⟨2, 2, 0⟩).unsubIoctls = (⟨2, 2, 0⟩ : SubState).unsubIoctls ∧
     (ctl_card_finalize_src (ctl_card_finalize_src ⟨2, 2, 0⟩)).subscribers = 0 ∧
     (ctl_card_finalize_src (ctl_card_finalize_src ⟨2, 2, 0⟩)).unsubIoctls
       = (⟨2, 2, 0⟩ : SubState).unsubIoctls + 1 ∧
     (alsactl_card_create_source (alsactl_card_create_source ⟨0, 0, 0⟩)).subscribers
       = 2) :=
  ⟨by decide, finalize_src_unsubscribes_last ⟨2, 2, 0⟩ (by decide)⟩

/-- C9: a dispatch whose non-blocking read reports would-block (`EAGAIN`)
keeps the source registered (continue) and performs no unsubscribe action
(the shared state is untouched); any other read failure removes the source;
error-readiness removes the source without attempting a read. -/
theorem dispatch_src_would_block_rearms (s : SubState) (e : Nat)
    (len : Nat) (r : Except Nat Nat) (he : e ≠ EAGAIN) :
    ctl_card_dispatch_src s true false (.error EAGAIN) = ⟨.keep, true, s⟩ ∧
    ctl_card_dispatch_src s true false (.error e) = ⟨.remove, true, s⟩ ∧
    ctl_card_dispatch_src s true true r = ⟨.remove, false, s⟩ ∧
    ctl_card_dispatch_src s true false (.ok len) = ⟨.keep, true, s⟩ := by
  simp [ctl_card_dispatch_src, he]

/-- Witness for C9 at errno `EINVAL` (≠ `EAGAIN`). -/
theorem dispatch_src_would_block_rearms_witness :
    EINVAL ≠ EAGAIN ∧
    (ctl_card_dispatch_src ⟨1, 1, 0⟩ true false (.error EAGAIN)
       = ⟨.keep, true, ⟨1, 1, 0⟩⟩ ∧
     ctl_card_dispatch_src ⟨1, 1, 0⟩ true false (.error EINVAL)
       = ⟨.remove, true, ⟨1, 1, 0⟩⟩ ∧
     ctl_card_dispatch_src ⟨1, 1, 0⟩ true true (.ok 0)
       = ⟨.remove, false, ⟨1, 1, 0⟩⟩ ∧
     ctl_card_dispatch_src ⟨1, 1, 0⟩ true false (.ok 64)
       = ⟨.keep, true, ⟨1, 1, 0⟩⟩) :=
  ⟨by decide, dispatch_src_would_block_rearms ⟨1, 1, 0⟩ EINVAL 64 (.ok 0) (by decide)⟩

/-- C3: a null buffer, or one holding fewer than 2 quadlets, makes each of
the three TLV operations fail with `InvalidArgument` before any ioctl is
issued, for every kernel oracle. -/
theorem tlv_short_buffer_invalid_arg (kernel : TlvPacket → Except Nat TlvPacket)
    (numid : Nat) (shortBuf anyBuf : List Int) (h : shortBuf.length < 2) :
    ((alsactl_card_read_elem_tlv kernel numid false shortBuf).err
        = some .invalidArgument ∧
     (alsactl_card_read_elem_tlv kernel numid false shortBuf).ioctls = 0) ∧
    ((alsactl_card_write_elem_tlv kernel numid false shortBuf).err
        = some .invalidArgument ∧
     (alsactl_card_write_elem_tlv kernel numid false shortBuf).ioctls = 0) ∧
    ((alsactl_card_command_elem_tlv kernel numid false shortBuf).err
        = some .invalidArgument ∧
     (alsactl_card_command_elem_tlv kernel numid false shortBuf).ioctls = 0) ∧
    ((alsactl_card_read_elem_tlv kernel numid true anyBuf).err
        = some .invalidArgument ∧
     (alsactl_card_read_elem_tlv kernel numid true anyBuf).ioctls = 0) ∧
    ((alsactl_card_write_elem_tlv kernel numid true anyBuf).err
        = some .invalidArgument ∧
     (alsactl_card_write_elem_tlv kernel numid true anyBuf).ioctls = 0) ∧
    ((alsactl_card_command_elem_tlv kernel numid true anyBuf).err
        = some .invalidArgument ∧
     (alsactl_card_command_elem_tlv kernel numid true anyBuf).ioctls = 0) := by
  simp [alsactl_card_read_elem_tlv, alsactl_card_write_elem_tlv,
        alsactl_card_command_elem_tlv, h]

/-- Witness for C3: a one-quadlet buffer and the null-pointer case, with an
always-succeeding kernel oracle. -/
theorem tlv_short_buffer_invalid_arg_witness :
    ([(7 : Int)].length < 2) ∧
    (((alsactl_card_read_elem_tlv .ok 1 false [7]).err = some .invalidArgument ∧
      (alsactl_card_read_elem_tlv .ok 1 false [7]).ioctls = 0) ∧
     ((alsactl_card_write_elem_tlv .ok 1 false [7]).err = some .invalidArgument ∧
      (alsactl_card_write_elem_tlv .ok 1 false [7]).ioctls = 0) ∧
     ((alsactl_card_command_elem_tlv .ok 1 false [7]).err = some .invalidArgument ∧
      (alsactl_card_command_elem_tlv .ok 1 false [7]).ioctls = 0) ∧
     ((alsactl_card_read_elem_tlv .ok 1 true [1, 2, 3]).err = some .invalidArgument ∧
      (alsactl_card_read_elem_tlv .ok 1 true [1, 2, 3]).ioctls = 0) ∧
     ((alsactl_card_write_elem_tlv .ok 1 true [1, 2, 3]).err = some .invalidArgument ∧
      (alsactl_card_write_elem_tlv .ok 1 true [1, 2, 3]).ioctls = 0) ∧
     ((alsactl_card_command_elem_tlv .ok 1 true [1, 2, 3]).err = some .invalidArgument ∧
      (alsactl_card_command_elem_tlv .ok 1 true [1, 2, 3]).ioctls = 0)) :=
  ⟨by decide, tlv_short_buffer_invalid_arg .ok 1 [7] [1, 2, 3] (by decide)⟩

/-- Counterexample to C2: `ReadElementTlv` on buffer `[5, 5]` with a failing
ioctl reports `DeviceIoError` but does not leave the caller's buffer
unchanged — the zero-filled transient packet is copied back over it. -/
theorem read_elem_tlv_fail_clobbers_buffer :
    (alsactl_card_read_elem_tlv (fun _ => .error 5) 1 false [5, 5]).err
      = some (.deviceIo 5) ∧
    (alsactl_card_read_elem_tlv (fun _ => .error 5) 1 false [5, 5]).buf
      = [0, 0] ∧
    (alsactl_card_read_elem_tlv (fun _ => .error 5) 1 false [5, 5]).buf
      ≠ [5, 5] := by
  decide

/-- C2 as amended: on a failed ioctl both operations report `DeviceIoError`,
free the transient packet before returning, and leave the reported count
unchanged (the buffer is never grown beyond its declared capacity);
`CommandElementTlv` leaves the buffer's contents unchanged (its own
quadlets are copied back over themselves), but `ReadElementTlv` overwrites
the caller's buffer with the zero-initialized packet payload. -/
theorem tlv_fail_no_partial_success (e numid : Nat) (container : List Int)
    (h : 2 ≤ container.length) :
    (let rd := alsactl_card_read_elem_tlv (fun _ => .error e) numid false container
     rd.err = some (.deviceIo e) ∧ rd.count = container.length ∧
     rd.buf = List.replicate container.length 0 ∧
     rd.buf.length = container.length ∧ rd.packetFreed = true) ∧
    (let cm := alsactl_card_command_elem_tlv (fun _ => .error e) numid false container
     cm.err = some (.deviceIo e) ∧ cm.count = container.length ∧
     cm.buf = container ∧ cm.packetFreed = true) := by
  have hlt : ¬ (container.length < 2) := by omega
  have h4 : 4 * container.length / 4 = container.length := by omega
  constructor
  · simp [alsactl_card_read_elem_tlv, hlt, copyQuadlets, h4,
      List.take_replicate, Nat.min_self, List.drop_length]
  · simp [alsactl_card_command_elem_tlv, hlt, copyQuadlets, h4,
      List.take_length, List.drop_length]

/-- Witness for the amended C2 at buffer `[5, 5]` and errno 5. -/
theorem tlv_fail_no_partial_success_witness :
    (2 ≤ [(5 : Int), 5].length) ∧
    ((let rd := alsactl_card_read_elem_tlv (fun _ => .error 5) 1 false [5, 5]
      rd.err = some (.deviceIo 5) ∧ rd.count = [(5 : Int), 5].length ∧
      rd.buf = List.replicate [(5 : Int), 5].length 0 ∧
      rd.buf.length = [(5 : Int), 5].length ∧ rd.packetFreed = true) ∧
     (let cm := alsactl_card_command_elem_tlv (fun _ => .error 5) 1 false [5, 5]
      cm.err = some (.deviceIo 5) ∧ cm.count = [(5 : Int), 5].length ∧
      cm.buf = [5, 5] ∧ cm.packetFreed = true)) :=
  ⟨by decide, tlv_fail_no_partial_success 5 1 [5, 5] (by decide)⟩

theorem advanceId_zero (id0 : ElemId) (h1 : id0.numid < U32)
    (h2 : id0.index < U32) : advanceId id0 0 = id0 := by
  simp [advanceId, Nat.mod_eq_of_lt h1, Nat.mod_eq_of_lt h2]

theorem advanceId_succ_shift (id0 : ElemId) (i : Nat) :
    advanceId { id0 with numid := (id0.numid + 1) % U32,
                         index := (id0.index + 1) % U32 } i
      = advanceId id0 (i + 1) := by
  have key : ∀ a : Nat, ((a + 1) % U32 + i) % U32 = (a + (i + 1)) % U32 := by
    intro a
    simp only [U32]
    omega
  cases id0
  simp [advanceId, key]

theorem collectEntries_eq (n : Nat) :
    ∀ id0 : ElemId, id0.numid < U32 → id0.index < U32 →
      collectEntries n id0 = ((List.range n).map (advanceId id0), advanceId id0 n) := by
  induction n with
  | zero =>
      intro id0 h1 h2
      simp [collectEntries, advanceId_zero id0 h1 h2]
  | succ n ih =>
      intro id0 h1 h2
      have hU : (0 : Nat) < U32 := by decide
      have hshift := advanceId_succ_shift id0
      simp only [collectEntries]
      rw [ih _ (Nat.mod_lt _ hU) (Nat.mod_lt _ hU)]
      simp only [Prod.mk.injEq]
      refine ⟨?_, hshift n⟩
      rw [List.range_succ_eq_map, List.map_cons, List.map_map,
        advanceId_zero id0 h1 h2]
      refine congrArg (List.cons id0) ?_
      refine congrArg (fun f => List.map f (List.range n)) ?_
      funext i
      simpa [Function.comp] using hshift i

/-- C4: every successful AddElements/ReplaceElements call with requested
count `n` returns exactly `n` element identifiers, the i-th (0-based) being
the kernel-returned base identifier with both numeric id and index
incremented by `i` (as 32-bit counters). -/
theorem add_replace_returns_contiguous_ids (reply : SndCtlElemInfo)
    (junk : Nat) (allocOk : Bool) (elem_id : ElemId) (n : Nat)
    (elem_info : SndCtlElemInfo) (labels : List String) (replace : Bool)
    (hn : reply.id.numid < U32) (hi : reply.id.index < U32)
    (h : (add_or_replace_elems (fun _ _ => .ok reply) junk allocOk elem_id n
            elem_info labels replace).err = none) :
    (add_or_replace_elems (fun _ _ => .ok reply) junk allocOk elem_id n
        elem_info labels replace).entries.length = n ∧
    (add_or_replace_elems (fun _ _ => .ok reply) junk allocOk elem_id n
        elem_info labels replace).entries
      = (List.range n).map (advanceId reply.id) := by
  simp only [add_or_replace_elems] at h ⊢
  split at h
  · simp at h
  · rw [collectEntries_eq n reply.id hn hi]
    simp

/-- Witness for C4 at the claim's concrete instance: count 3 on a kernel
returning base identifier with numid 10 and index 0 yields exactly
numid 10 / index 0, numid 11 / index 1, numid 12 / index 2. -/
theorem add_replace_returns_contiguous_ids_witness :
    ((10 : Nat) < U32 ∧ (0 : Nat) < U32 ∧
     (alsactl_card_add_elems
        (fun _ _ => .ok { zeroElemInfo with id := ⟨10, 0, 0, 0, "", 0⟩ })
        0 true zeroElemId 3 zeroElemInfo []).err = none) ∧
    (alsactl_card_add_elems
        (fun _ _ => .ok { zeroElemInfo with id := ⟨10, 0, 0, 0, "", 0⟩ })
        0 true zeroElemId 3 zeroElemInfo []).entries
      = [⟨10, 0, 0, 0, "", 0⟩, ⟨11, 0, 0, 0, "", 1⟩, ⟨12, 0, 0, 0, "", 2⟩] := by
  refine ⟨⟨by decide, by decide, by decide⟩, ?_⟩
  have h := add_replace_returns_contiguous_ids
    { zeroElemInfo with id := ⟨10, 0, 0, 0, "", 0⟩ } 0 true zeroElemId 3
    zeroElemInfo [] false (by decide) (by decide) (by decide)
  exact h.2.trans (by decide)

/-- C5 (code bug): `prepare_enum_names` reads its accumulator `length`
uninitialized (the C declares `unsigned int length;` and first uses it as
`length += strlen(label) + 1`). With junk 4 left in the local, one label
"A" yields a declared names length of 6, not the 2 bytes the serialized
sequence occupies; junk of 64 KiB makes even that one label rejected with
`EINVAL`. With the accumulator starting at zero — the spec's intent — the
declared length equals the sum over all labels of (label length + 1), and
a 64-byte label is rejected with `EINVAL` before any ioctl is issued. -/
theorem prepare_enum_names_uninitialized_length :
    prepare_enum_names 4 true ["A"]
      = .ok { bytes := [65, 0, 0, 0, 0, 0], namesLength := 6, items := 1 } ∧
    (serializeLabels ["A"]).length = 2 ∧
    prepare_enum_names 0 true ["A"]
      = .ok { bytes := [65, 0], namesLength := 2, items := 1 } ∧
    prepare_enum_names 65536 true ["A"] = .error EINVAL ∧
    (alsactl_card_add_elems (fun _ _ => .ok zeroElemInfo) 0 true
        zeroElemId 1 { zeroElemInfo with type := SNDRV_CTL_ELEM_TYPE_ENUMERATED }
        [String.mk (List.replicate 64 'a')]).err = some .invalidArgument ∧
    (alsactl_card_add_elems (fun _ _ => .ok zeroElemInfo) 0 true
        zeroElemId 1 { zeroElemInfo with type := SNDRV_CTL_ELEM_TYPE_ENUMERATED }
        [String.mk (List.replicate 64 'a')]).ioctls = 0 ∧
    (alsactl_card_add_elems (fun _ _ => .ok zeroElemInfo) 0 true
        zeroElemId 1 { zeroElemInfo with type := SNDRV_CTL_ELEM_TYPE_ENUMERATED }
        [String.mk (List.replicate 64 'a')]).scratchFreed = true := by
  decide

/-- C10: AddElements/ReplaceElements mutates the caller's ElementInfo
record in place. The packet handed to the ioctl carries the requested id
and the requested count in the owner field; a successful ioctl leaves the
record holding the kernel reply with its id advanced by the requested
count in both numeric id and index; a failed ioctl leaves the sent record;
and when enum-label serialization fails before any ioctl, the id has
already been overwritten with the requested id. The record is never
restored. -/
theorem add_replace_mutates_info_in_place (reply : SndCtlElemInfo)
    (e junk : Nat) (elem_id : ElemId) (n : Nat) (elem_info : SndCtlElemInfo)
    (labels : List String) (replace : Bool) (longLabel : String)
    (hT : elem_info.type ≠ SNDRV_CTL_ELEM_TYPE_ENUMERATED)
    (hn : reply.id.numid < U32) (hi : reply.id.index < U32) (hc : n < U32)
    (hL : 64 ≤ strlen longLabel) :
    (add_or_replace_elems (fun _ _ => .ok reply) junk true elem_id n
        elem_info labels replace).sent
      = some { elem_info with id := elem_id, owner := n } ∧
    (add_or_replace_elems (fun _ _ => .ok reply) junk true elem_id n
        elem_info labels replace).finalInfo
      = { reply with id := advanceId reply.id n } ∧
    (add_or_replace_elems (fun _ _ => .error e) junk true elem_id n
        elem_info labels replace).finalInfo
      = { elem_info with id := elem_id, owner := n } ∧
    (add_or_replace_elems (fun _ _ => .ok reply) junk true elem_id n
        { elem_info with type := SNDRV_CTL_ELEM_TYPE_ENUMERATED }
        [longLabel] replace).finalInfo.id = elem_id ∧
    (add_or_replace_elems (fun _ _ => .ok reply) junk true elem_id n
        { elem_info with type := SNDRV_CTL_ELEM_TYPE_ENUMERATED }
        [longLabel] replace).ioctls = 0 := by
  have hmod : n % U32 = n := Nat.mod_eq_of_lt hc
  have hserial : prepare_enum_names junk true [longLabel] = .error EINVAL := by
    simp [prepare_enum_names, measureLabels, hL]
  refine ⟨?_, ?_, ?_, ?_, ?_⟩
  · simp [add_or_replace_elems, hT, hmod]
  · simp [add_or_replace_elems, hT, collectEntries_eq n reply.id hn hi]
  · simp [add_or_replace_elems, hT, hmod]
  · simp [add_or_replace_elems, hserial]
  · simp [add_or_replace_elems, hserial]

/-- Witness for C10: requested id with numid 7, count 2, an integer-typed
info record, a kernel reply with base numid 10, and a 64-byte label for
the serialization-failure conjunct. -/
theorem add_replace_mutates_info_in_place_witness :
    ((zeroElemInfo.type ≠ SNDRV_CTL_ELEM_TYPE_ENUMERATED) ∧
     (10 : Nat) < U32 ∧ (0 : Nat) < U32 ∧ (2 : Nat) < U32 ∧
     64 ≤ strlen (String.mk (List.replicate 64 'a'))) ∧
    (add_or_replace_elems
        (fun _ _ => .ok { zeroElemInfo with id := ⟨10, 0, 0, 0, "", 0⟩ })
        0 true ⟨7, 0, 0, 0, "", 0⟩ 2 zeroElemInfo [] false).sent
      = some { zeroElemInfo with id := ⟨7, 0, 0, 0, "", 0⟩, owner := 2 } ∧
    (add_or_replace_elems
        (fun _ _ => .ok { zeroElemInfo with id := ⟨10, 0, 0, 0, "", 0⟩ })
        0 true ⟨7, 0, 0, 0, "", 0⟩ 2 zeroElemInfo [] false).finalInfo
      = { zeroElemInfo with
          id := advanceId (⟨10, 0, 0, 0, "", 0⟩ : ElemId) 2 } := by
  have h := add_replace_mutates_info_in_place
    { zeroElemInfo with id := ⟨10, 0, 0, 0, "", 0⟩ } 9 0 ⟨7, 0, 0, 0, "", 0⟩ 2
    zeroElemInfo [] false (String.mk (List.replicate 64 'a'))
    (by decide) (by decide) (by decide) (by decide) (by decide)
  exact ⟨⟨by decide, by decide, by decide, by decide, by decide⟩, h.1, h.2.1⟩

theorem listSchedule_covers (count offset : Nat) :
    scheduleCovers count offset (listSchedule count offset) := by
  rw [listSchedule]
  split
  · next h =>
      simp only [scheduleCovers]
      refine ⟨by simp, by simp, by omega, by omega, ?_⟩
      exact listSchedule_covers count (offset + min (count - offset) 1000)
  · next h =>
      simp only [scheduleCovers]
      omega
termination_by count - offset
decreasing_by omega

theorem listSchedule_length (count offset : Nat) :
    (listSchedule count offset).length = (count - offset + 999) / 1000 := by
  rw [listSchedule]
  split
  · next h =>
      simp only [List.length_cons,
        listSchedule_length count (offset + min (count - offset) 1000)]
      omega
  · next h =>
      simp only [List.length_nil]
      omega
termination_by count - offset
decreasing_by omega

theorem elemListLoop_good (elems : List ElemId) (offset : Nat)
    (ids : List ElemId) (log : List (Nat × Nat))
    (hlen : ids.length = elems.length) (hpre : ids.take offset = elems.take offset) :
    elemListLoop (goodListKernel elems) elems.length offset ids log
      = (.ok elems, log ++ listSchedule elems.length offset) := by
  by_cases h : offset < elems.length
  · rw [elemListLoop, listSchedule, dif_pos h, dif_pos h]
    simp only [goodListKernel]
    have hsple : min (elems.length - offset) 1000 ≤ elems.length - offset :=
      Nat.min_le_left _ _
    set space := min (elems.length - offset) 1000 with hspace
    set chunk := (elems.drop offset).take space with hchunk
    have hchunklen : chunk.length = space := by
      simp only [hchunk, List.length_take, List.length_drop]
      omega
    have hidtakelen : (ids.take offset).length = offset := by
      simp only [List.length_take]
      omega
    have hlen' : (writeChunk ids offset chunk).length = elems.length := by
      simp only [writeChunk, List.length_append, List.length_take,
        List.length_drop, hchunklen]
      omega
    have hpre' : (writeChunk ids offset chunk).take (offset + space)
        = elems.take (offset + space) := by
      have hmid : chunk.take (ids.length - offset) = chunk := by
        apply List.take_of_length_le
        omega
      calc (writeChunk ids offset chunk).take (offset + space)
          = (ids.take offset ++ (chunk ++ ids.drop (offset + chunk.length))).take
              ((ids.take offset).length + space) := by
            simp only [writeChunk, hmid, List.append_assoc, hidtakelen]
        _ = ids.take offset ++ (chunk ++ ids.drop (offset + chunk.length)).take space :=
            List.take_append space
        _ = ids.take offset ++ chunk := by rw [List.take_left' hchunklen]
        _ = elems.take offset ++ (elems.drop offset).take space := by
            rw [hpre, hchunk]
        _ = elems.take (offset + space) := (List.take_add elems offset space).symm
    rw [elemListLoop_good elems (offset + space) (writeChunk ids offset chunk)
      (log ++ [(offset, space)]) hlen' hpre']
    simp
  · rw [elemListLoop, listSchedule, dif_neg h, dif_neg h]
    have hids : ids.take offset = ids := List.take_of_length_le (by omega)
    have helems : elems.take offset = elems := List.take_of_length_le (by omega)
    rw [hids, helems] at hpre
    simp [hpre]
termination_by elems.length - offset
decreasing_by omega

theorem elemListLoop_fail (elems : List ElemId) (f e : Nat)
    (hmod : f % 1000 = 0) (hf : f < elems.length) (offset : Nat)
    (ids : List ElemId) (log : List (Nat × Nat))
    (homod : offset % 1000 = 0) (hole : offset ≤ f) :
    (elemListLoop (failListKernel elems f e) elems.length offset ids log).1
      = .error (.deviceIo e) := by
  have h : offset < elems.length := by omega
  rw [elemListLoop, dif_pos h]
  by_cases hef : offset = f
  · simp [failListKernel, hef]
  · have hsp : min (elems.length - offset) 1000 = 1000 := by omega
    simp only [failListKernel, if_neg hef, hsp]
    exact elemListLoop_fail elems f e hmod hf (offset + 1000) _ _
      (by omega) (by omega)
termination_by f - offset
decreasing_by omega

/-- C1: `ListElementIdentifiers` first issues the zero-count query; a
failure there fails the whole operation with `DeviceIoError` and issues no
list query. Count 0 returns the empty sequence immediately with no list
query. Otherwise the pagination issues exactly ceil(N/1000) list queries,
each asking for `min(N - offset, 1000) ≤ 1000` entries at the running
offset and advancing the offset by the entries returned, and on success
returns exactly the N identifiers in kernel-reported order; a failure on
any intermediate list query fails the whole operation with `DeviceIoError`
and returns no identifiers. -/
theorem get_elem_id_list_paginates (elems : List ElemId) (ec fe k : Nat)
    (hk : 1000 * k < elems.length) :
    alsactl_card_get_elem_id_list (.error ec) true (goodListKernel elems)
      = (.error (.deviceIo ec), []) ∧
    alsactl_card_get_elem_id_list (.ok 0) true (goodListKernel elems)
      = (.ok [], []) ∧
    alsactl_card_get_elem_id_list (.ok elems.length) true (goodListKernel elems)
      = (.ok elems, listSchedule elems.length 0) ∧
    (listSchedule elems.length 0).length = (elems.length + 999) / 1000 ∧
    scheduleCovers elems.length 0 (listSchedule elems.length 0) ∧
    (alsactl_card_get_elem_id_list (.ok elems.length) true
        (failListKernel elems (1000 * k) fe)).1 = .error (.deviceIo fe) := by
  have hN : elems.length ≠ 0 := by omega
  refine ⟨rfl, rfl, ?_, ?_, ?_, ?_⟩
  · have hloop := elemListLoop_good elems 0
      (List.replicate elems.length zeroElemId) [] (by simp) (by simp)
    simp [alsactl_card_get_elem_id_list, allocate_elem_ids, hN, hloop]
  · simpa using listSchedule_length elems.length 0
  · exact listSchedule_covers elems.length 0
  · have hloop := elemListLoop_fail elems (1000 * k) fe (by omega) (by omega) 0
      (List.replicate elems.length zeroElemId) [] (by omega) (by omega)
    rcases hres : elemListLoop (failListKernel elems (1000 * k) fe) elems.length 0
        (List.replicate elems.length zeroElemId) [] with ⟨r, lg⟩
    rw [hres] at hloop
    simp only at hloop
    subst hloop
    simp [alsactl_card_get_elem_id_list, allocate_elem_ids, hN, hres]

/-- Witness for C1 on a device with 1001 elements (so the success path
issues ceil(1001/1000) = 2 list queries) and a failure injected at the
second list query (offset 1000). -/
theorem get_elem_id_list_paginates_witness :
    1000 * 1 < (mkIds 1001).length ∧
    (alsactl_card_get_elem_id_list (.error 7) true (goodListKernel (mkIds 1001))
       = (.error (.deviceIo 7), []) ∧
     alsactl_card_get_elem_id_list (.ok 0) true (goodListKernel (mkIds 1001))
       = (.ok [], []) ∧
     alsactl_card_get_elem_id_list (.ok (mkIds 1001).length) true
         (goodListKernel (mkIds 1001))
       = (.ok (mkIds 1001), listSchedule (mkIds 1001).length 0) ∧
     (listSchedule (mkIds 1001).length 0).length = ((mkIds 1001).length + 999) / 1000 ∧
     scheduleCovers (mkIds 1001).length 0 (listSchedule (mkIds 1001).length 0) ∧
     (alsactl_card_get_elem_id_list (.ok (mkIds 1001).length) true
         (failListKernel (mkIds 1001) (1000 * 1) 9)).1 = .error (.deviceIo 9)) :=
  ⟨by simp [mkIds], get_elem_id_list_paginates (mkIds 1001) 7 9 1 (by simp [mkIds])⟩

theorem enumLabelLoop_good (names : List String) :
    ∀ (cap : Nat), ∀ i callNo : Nat, ∀ info : SndCtlElemInfo,
      ∀ labels : List String, info.enumItems = names.length →
      cap + i = names.length →
      ∃ fin : SndCtlElemInfo,
        enumLabelLoop (enumInfoKernel names) cap i callNo info labels
          = (.ok (some (labels ++ names.drop i, fin)), callNo + cap) := by
  intro cap
  induction cap with
  | zero =>
      intro i callNo info labels hitems hsum
      have hnlt : ¬ (i < info.enumItems) := by omega
      refine ⟨info, ?_⟩
      simp [enumLabelLoop, hnlt, List.drop_eq_nil_of_le (by omega : names.length ≤ i)]
  | succ cap ih =>
      intro i callNo info labels hitems hsum
      have hi : i < info.enumItems := by omega
      have hig : i < names.length := by omega
      simp only [enumLabelLoop, if_pos hi, enumInfoKernel]
      obtain ⟨fin, hfin⟩ := ih (i + 1) (callNo + 1)
        ⟨info.id, SNDRV_CTL_ELEM_TYPE_ENUMERATED, info.owner, names.length, i,
         names.getD i "", info.enumNamesLength, info.enumNamesBytes⟩
        (labels ++ [names.getD i ""]) rfl (by omega)
      refine ⟨fin, Eq.trans hfin ?_⟩
      have hdrop : names.drop i = names.getD i "" :: names.drop (i + 1) := by
        rw [List.getD_eq_getElem names "" hig]
        exact List.drop_eq_getElem_cons hig
      rw [hdrop]
      simp [List.append_assoc, Nat.add_assoc, Nat.add_comm 1 cap]

theorem enumLabelLoop_failAt (names : List String) (j e : Nat) :
    ∀ (cap : Nat), ∀ i callNo : Nat, ∀ info : SndCtlElemInfo,
      ∀ labels : List String, info.enumItems = names.length →
      cap + i = names.length → callNo = i + 1 → callNo ≤ j →
      j ≤ names.length →
      (enumLabelLoop (enumInfoKernelFailAt names j e) cap i callNo
          info labels).1 = .error e := by
  intro cap
  induction cap with
  | zero =>
      intro i callNo info labels hitems hsum hcall hle hjk
      omega
  | succ cap ih =>
      intro i callNo info labels hitems hsum hcall hle hjk
      have hi : i < info.enumItems := by omega
      simp only [enumLabelLoop, if_pos hi, enumInfoKernelFailAt]
      by_cases hej : callNo = j
      · simp [hej]
      · simp only [if_neg hej]
        exact ih (i + 1) (callNo + 1)
          ⟨info.id, SNDRV_CTL_ELEM_TYPE_ENUMERATED, info.owner, names.length, i,
           names.getD i "", info.enumNamesLength, info.enumNamesBytes⟩
          (labels ++ [names.getD i ""]) rfl (by omega) (by omega)
          (by omega) hjk

/-- C6: `GetElementInfo` on an element the kernel consistently reports as
ENUMERATED with `k` labels issues one additional info query per index
(`k + 1` ioctls in total) and produces the enumerated variant whose label
sequence equals the kernel-reported names in index order; a failure of any
intermediate ioctl (call number `j`, `1 ≤ j ≤ k`) fails the operation with
`DeviceIoError` and yields no variant and no partial labels. -/
theorem get_elem_info_enum_labels (names : List String) (elem_id : ElemId)
    (j e : Nat) (hj1 : 1 ≤ j) (hjk : j ≤ names.length) :
    (∃ fin : SndCtlElemInfo,
       alsactl_card_get_elem_info (enumInfoKernel names) elem_id
         = (.ok (some (.enumV names, fin)), names.length + 1)) ∧
    (alsactl_card_get_elem_info (enumInfoKernelFailAt names j e) elem_id).1
      = .error (.deviceIo e) := by
  constructor
  · obtain ⟨fin, hfin⟩ := enumLabelLoop_good names names.length 0 1
      ⟨elem_id, SNDRV_CTL_ELEM_TYPE_ENUMERATED, 0, names.length, 0,
       names.getD 0 "", 0, []⟩
      [] rfl (by omega)
    refine ⟨fin, ?_⟩
    simp only [alsactl_card_get_elem_info, enumInfoKernel, zeroElemInfo,
      zeroElemId]
    rw [if_neg (by simp)]
    rw [hfin]
    simp [Nat.add_comm]
  · have h0j : ¬ ((0 : Nat) = j) := by omega
    have hloop := enumLabelLoop_failAt names j e names.length 0 1
      ⟨elem_id, SNDRV_CTL_ELEM_TYPE_ENUMERATED, 0, names.length, 0,
       names.getD 0 "", 0, []⟩
      [] rfl (by omega) rfl (by omega) hjk
    simp only [alsactl_card_get_elem_info, enumInfoKernelFailAt, zeroElemInfo,
      zeroElemId, if_neg h0j]
    rw [if_neg (by simp)]
    rcases hres : enumLabelLoop (enumInfoKernelFailAt names j e) names.length 0 1
        ⟨elem_id, SNDRV_CTL_ELEM_TYPE_ENUMERATED, 0, names.length, 0,
         names.getD 0 "", 0, []⟩
        [] with ⟨r, c⟩
    rw [hres] at hloop
    simp only at hloop
    subst hloop
    rfl

/-- Witness for C6 at the claim's concrete instance: three kernel-reported
labels Off, Low, High, with the failure injected at the second label
query. -/
theorem get_elem_info_enum_labels_witness :
    (1 ≤ 2 ∧ 2 ≤ ["Off", "Low", "High"].length) ∧
    ((∃ fin : SndCtlElemInfo,
        alsactl_card_get_elem_info (enumInfoKernel ["Off", "Low", "High"])
            zeroElemId
          = (.ok (some (.enumV ["Off", "Low", "High"], fin)),
             ["Off", "Low", "High"].length + 1)) ∧
     (alsactl_card_get_elem_info
         (enumInfoKernelFailAt ["Off", "Low", "High"] 2 5) zeroElemId).1
       = .error (.deviceIo 5)) :=
  ⟨⟨by decide, by decide⟩,
   get_elem_info_enum_labels ["Off", "Low", "High"] zeroElemId 2 5
     (by decide) (by decide)⟩

/-- C7: when the initial info ioctl succeeds but reports a discriminant
outside the six modelled types, `GetElementInfo` fails with the
`UnsupportedType` kind — a constructor distinct from `DeviceIoError`
wrapping any OS code — after exactly that one ioctl, producing no variant. -/
theorem get_elem_info_unsupported_type (t : Nat) (elem_id : ElemId)
    (h1 : t ≠ SNDRV_CTL_ELEM_TYPE_BOOLEAN)
    (h2 : t ≠ SNDRV_CTL_ELEM_TYPE_INTEGER)
    (h3 : t ≠ SNDRV_CTL_ELEM_TYPE_ENUMERATED)
    (h4 : t ≠ SNDRV_CTL_ELEM_TYPE_BYTES)
    (h5 : t ≠ SNDRV_CTL_ELEM_TYPE_IEC958)
    (h6 : t ≠ SNDRV_CTL_ELEM_TYPE_INTEGER64) :
    alsactl_card_get_elem_info (typeInfoKernel t) elem_id
      = (.error .unsupportedType, 1) ∧
    ∀ c : Nat, (CtlError.unsupportedType ≠ CtlError.deviceIo c) := by
  constructor
  · simp [alsactl_card_get_elem_info, typeInfoKernel, h1, h2, h3, h4, h5, h6]
  · intro c
    simp

/-- Witness for C7 at discriminant 0 (`SNDRV_CTL_ELEM_TYPE_NONE`). -/
theorem get_elem_info_unsupported_type_witness :
    ((0 : Nat) ≠ SNDRV_CTL_ELEM_TYPE_BOOLEAN ∧
     (0 : Nat) ≠ SNDRV_CTL_ELEM_TYPE_INTEGER ∧
     (0 : Nat) ≠ SNDRV_CTL_ELEM_TYPE_ENUMERATED ∧
     (0 : Nat) ≠ SNDRV_CTL_ELEM_TYPE_BYTES ∧
     (0 : Nat) ≠ SNDRV_CTL_ELEM_TYPE_IEC958 ∧
     (0 : Nat) ≠ SNDRV_CTL_ELEM_TYPE_INTEGER64) ∧
    (alsactl_card_get_elem_info (typeInfoKernel 0) zeroElemId
       = (.error .unsupportedType, 1) ∧
     ∀ c : Nat, (CtlError.unsupportedType ≠ CtlError.deviceIo c)) :=
  ⟨⟨by decide, by decide, by decide, by decide, by decide, by decide⟩,
   get_elem_info_unsupported_type 0 zeroElemId (by decide) (by decide)
     (by decide) (by decide) (by decide) (by decide)⟩

end AlsaCtl

